import Mathlib

/-!
Shallow embedding of the med-misinfo-labeler moderation pipeline
(`pylabel/fda_lookup.py`, `pylabel/claim_checker.py`,
`pylabel/automated_labeler.py`).

Modelling conventions:
our external HTTP calls are oracle functions `String → Http α`:
`Http.err` is a raised transport exception from `requests.get`, and
`Http.resp status body` is a response whose `.json()` result is `body`
(`Except.error` when `.json()` itself raises).  A Python function that can
raise is embedded as `Except String α` (`Except.error msg` = an uncaught
exception propagating to the caller); a function that catches everything
returns a plain value.  JSON numbers are modelled as `Rat`, Python dicts
with a fixed key set as structures, with `Option` fields where presence or
absence of the key is observable.  Inference (LLM) calls are opaque
oracles returning the already-parsed JSON (`Option` = parse failure),
matching the spec treatment of the inference service as an opaque
collaborator.
-/

namespace MedMisinfo

/-- Decidable equality for `Except`, used to evaluate embedded
computations on concrete inputs. -/
def exceptEqDec {ε α : Type} [DecidableEq ε] [DecidableEq α] :
    (x y : Except ε α) → Decidable (x = y)
  | .error u, .error v =>
    if h : u = v then .isTrue (by rw [h])
    else .isFalse (fun hh => by injection hh; exact h (by assumption))
  | .error _, .ok _ => .isFalse (fun h => Except.noConfusion h)
  | .ok _, .error _ => .isFalse (fun h => Except.noConfusion h)
  | .ok u, .ok v =>
    if h : u = v then .isTrue (by rw [h])
    else .isFalse (fun hh => by injection hh; exact h (by assumption))

instance {ε α : Type} [DecidableEq ε] [DecidableEq α] :
    DecidableEq (Except ε α) := exceptEqDec

/-- True exactly when the embedded computation models a raised, uncaught
Python exception. -/
def raises {α : Type} : Except String α → Bool
  | .error _ => true
  | .ok _ => false

/-- Python whitespace characters removed by `str.strip()`. -/
def isPySpace (c : Char) : Bool :=
  c = ' ' ∨ c = '\t' ∨ c = '\n' ∨ c = '\r' ∨ c = Char.ofNat 11 ∨ c = Char.ofNat 12

/-- Embedding of Python `str.strip()`: remove leading and trailing
whitespace. -/
def pyStrip (s : String) : String :=
  String.mk (((s.data.dropWhile isPySpace).reverse.dropWhile isPySpace).reverse)

/-- Embedding of Python `str.lower()`. -/
def pyLower (s : String) : String :=
  String.mk (s.data.map Char.toLower)

/-- Outcome of one HTTP request: a raised exception from the request call,
or a response carrying a status code and a body that may itself fail to
parse when `.json()` is invoked. -/
inductive Http (α : Type) where
  | err (msg : String)
  | resp (status : Nat) (body : Except String α)

/-- The `openfda` sub-dictionary of an FDA record.  In the source every
read of these keys treats an absent key and an empty list identically
(`openfda.get(k) or [None]`, `openfda.get(k, [])`), so absence is
collapsed to `[]`. -/
structure OpenFda where
  brand_name : List String := []
  generic_name : List String := []
  manufacturer_name : List String := []
  deriving DecidableEq

/-- One result record of the drugsfda (approval index) API. -/
structure FdaRecord where
  openfda : OpenFda := {}
  deriving DecidableEq

/-- Parsed JSON body of a drugsfda response; `results` absent collapses to
`[]` (`response.json().get("results", [])`). -/
structure DrugsFdaJson where
  results : List FdaRecord := []
  deriving DecidableEq

/-- One result record of the label (labeling index) API. -/
structure LabelRecord where
  openfda : OpenFda := {}
  indications_and_usage : List String := []
  deriving DecidableEq

/-- Parsed JSON body of a label-API response. -/
structure LabelJson where
  results : List LabelRecord := []
  deriving DecidableEq

/-- Embedding of `fetch_fda_results` (fda_lookup.py lines 15-34): query the
drugsfda API; 404 yields `[]`, any other non-2xx raises via
`raise_for_status`, otherwise the `results` list of the parsed body. -/
def fetch_fda_results (net : String → Http DrugsFdaJson) (drug_name : String) :
    Except String (List FdaRecord) :=
  match net drug_name with
  | .err msg => .error msg
  | .resp status body =>
    if status = 404 then .ok []
    else if 400 ≤ status then .error ("HTTPError " ++ toString status)
    else
      match body with
      | .error msg => .error msg
      | .ok j => .ok j.results

/-- Embedding of `get_generic_name_from_label` (fda_lookup.py lines 37-68):
translate a brand name to a generic name via the label API; every failure
mode (exception, non-200 status, empty results, no generic name, empty
first generic name) falls back to the original `drug_name`. -/
def get_generic_name_from_label (net : String → Http LabelJson)
    (drug_name : String) : String :=
  match net drug_name with
  | .err _ => drug_name
  | .resp status body =>
    if status ≠ 200 then drug_name
    else
      match body with
      | .error _ => drug_name
      | .ok j =>
        match j.results with
        | [] => drug_name
        | r :: _ =>
          match r.openfda.generic_name with
          | [] => drug_name
          | g :: _ => if g ≠ "" then g else drug_name

/-- Result dictionary of `check_fda_approval`.  `approved` is always
present; the three identity fields are present (`some`) exactly on the
approved path, each possibly holding a Python `None` (`some none`); the
`error` key is present exactly when an exception was caught. -/
structure ApprovalResult where
  approved : Bool
  brand_name : Option (Option String) := none
  generic_name : Option (Option String) := none
  manufacturer : Option (Option String) := none
  error : Option String := none
  deriving DecidableEq

/-- The record-finding steps 1-3 inside the `try` of `check_fda_approval`
(fda_lookup.py lines 89-99): drugsfda with the original name, then, when
empty, the generic-name translation and a second drugsfda query when the
translated name is non-empty and differs case-insensitively. -/
def check_fda_approval_results (d : String → Http DrugsFdaJson)
    (lG : String → Http LabelJson) (drug_name : String) :
    Except String (List FdaRecord) :=
  match fetch_fda_results d drug_name with
  | .error msg => .error msg
  | .ok results =>
    if results.isEmpty then
      let generic_name := get_generic_name_from_label lG drug_name
      if generic_name ≠ "" ∧ pyLower generic_name ≠ pyLower drug_name then
        fetch_fda_results d generic_name
      else
        .ok results
    else
      .ok results

/-- Embedding of `check_fda_approval` (fda_lookup.py lines 71-120): the
two-step fallback lookup; no record means `{approved := false}`, a record
means approved with the first result's identity fields, and any exception
raised inside the steps is caught and converted to
`{approved := false, error := msg}`.  (The `lru_cache` decorator is pure
memoisation of this pure function and is not modelled.) -/
def check_fda_approval (d : String → Http DrugsFdaJson)
    (lG : String → Http LabelJson) (drug_name : String) : ApprovalResult :=
  match check_fda_approval_results d lG drug_name with
  | .error msg => { approved := false, error := some msg }
  | .ok [] => { approved := false }
  | .ok (r :: _) =>
    { approved := true
      brand_name := some r.openfda.brand_name.head?
      generic_name := some r.openfda.generic_name.head?
      manufacturer := some r.openfda.manufacturer_name.head? }

/-- Embedding of `get_fda_labeling` (fda_lookup.py lines 122-160).  The
source has no `try`/`except`: an exception from `requests.get` or from
`.json()` propagates to the caller, hence the `Except` result.  A non-200
status or empty result list yields the empty dict (`none`); otherwise the
dict `{"indications": ...}` (`some`), with `indications_and_usage` absent
collapsing to `[]`. -/
def get_fda_labeling (lI : String → Http LabelJson) (drug_name : String) :
    Except String (Option (List String)) :=
  match lI drug_name with
  | .err msg => .error msg
  | .resp status body =>
    if status ≠ 200 then .ok none
    else
      match body with
      | .error msg => .error msg
      | .ok j =>
        match j.results with
        | [] => .ok none
        | label :: _ => .ok (some label.indications_and_usage)

/-- Parsed JSON object returned by the claim-extraction inference call
(claim_checker.py `extract_claim`); each key may be absent. -/
structure ExtractJson where
  has_claim : Option Bool := none
  claim_confidence : Option Rat := none
  claim_text : Option String := none
  deriving DecidableEq

/-- Parsed JSON object returned by the claim-verification inference call
(claim_checker.py `fact_check_claim`); `confidence` is the legacy score
key. -/
structure MatchJson where
  match_score : Option Rat := none
  confidence : Option Rat := none
  evidence : Option String := none
  deriving DecidableEq

/-- Result dictionary of `fact_check_claim`: a tri-state `supported`
(`none` = Python `None`) and an evidence string. -/
structure FactCheckResult where
  supported : Option Bool
  evidence : String
  deriving DecidableEq

/-- Embedding of `extract_claim` (claim_checker.py lines 11-65).  The
inference call plus JSON parsing is the oracle `eLlm`, applied to the
model id, post text and drug name that determine the request; `none` is a
parse failure, downgraded to the fixed no-claim dict. -/
def extract_claim (eLlm : String → String → String → Option ExtractJson)
    (text drug_name llm_model : String) : ExtractJson :=
  match eLlm llm_model text drug_name with
  | some result => result
  | none => { has_claim := some false, claim_confidence := some 0, claim_text := some "" }

/-- Embedding of claim_checker.py line 90: the indication corpus sent to
the verifier, one `- `-prefixed line per indication string. -/
def format_fda_text (indications : List String) : String :=
  String.intercalate "\n" (indications.map (fun ind => "- " ++ ind))

/-- Embedding of claim_checker.py lines 91-92: corpora longer than 1500
characters are cut to their first 1500 characters plus the explicit
truncation marker. -/
def truncate_fda_text (fda_text : String) : String :=
  if fda_text.length > 1500 then fda_text.take 1500 ++ "\n... (truncated)"
  else fda_text

/-- Embedding of `fact_check_claim` (claim_checker.py lines 68-145).  The
indication lookup `get_fda_labeling` may raise (hence `Except`); empty
indications short-circuit to the `supported = None` no-data result; the
verification inference call plus parsing is the oracle `vLlm`, applied to
the model id, claim text, drug name and the (truncated) indication corpus
that determine the matching prompt, with `none` a parse failure.  The
score is `result.get("match_score") or result.get("confidence", 0.0)`:
a missing or zero (falsy) `match_score` falls back to the legacy key. -/
def fact_check_claim (lI : String → Http LabelJson)
    (vLlm : String → String → String → String → Option MatchJson)
    (claim_text drug_name : String) (threshold : Rat) (llm_model : String) :
    Except String FactCheckResult :=
  match get_fda_labeling lI drug_name with
  | .error msg => .error msg
  | .ok labeling =>
    let indications := labeling.getD []
    if indications = [] then
      .ok { supported := none, evidence := "No FDA indication data" }
    else
      let fda_text := truncate_fda_text (format_fda_text indications)
      match vLlm llm_model claim_text drug_name fda_text with
      | none => .ok { supported := none, evidence := "Could not verify claim" }
      | some result =>
        let match_score :=
          match result.match_score with
          | some s => if s ≠ 0 then s else result.confidence.getD 0
          | none => result.confidence.getD 0
        .ok { supported := some (decide (threshold ≤ match_score))
              evidence := result.evidence.getD "" }

/-- Module constant `DRUG_CONFIDENCE_THRESHOLD = 0.65`
(automated_labeler.py line 15). -/
def DRUG_CONFIDENCE_THRESHOLD : Rat := ⟨13, 20, by norm_num, by norm_num⟩

/-- Module constant `FACT_CHECK_THRESHOLD = 0.5`
(automated_labeler.py line 16); defined but never passed by the calls in
`_check_claims` as written. -/
def FACT_CHECK_THRESHOLD : Rat := ⟨1, 2, by norm_num, by norm_num⟩

/-- Module constant `LLM_MODEL` (automated_labeler.py line 17). -/
def LLM_MODEL : String := "gpt-5-mini"

/-- Parsed JSON detection payload produced by `_detect_drug_mention`; each
key may be absent, and the call sites read them with `payload.get`. -/
structure Payload where
  discussing_drug : Option Bool := none
  confidence_score : Option Rat := none
  drug_names : Option (List String) := none
  deriving DecidableEq

/-- One entry of the `claim_details` list built in `_check_claims`
(automated_labeler.py lines 121-126). -/
structure ClaimDetail where
  drug_name : String
  claim_text : String
  supported : Option Bool
  evidence : String
  deriving DecidableEq

/-- The per-name loop of `_determine_approval_labels`
(automated_labeler.py lines 160-168), returning the accumulated
`approved_drugs` list (in input order) and the `has_unapproved` flag.
Names that are empty after `strip()` are skipped; a name whose approval
result carries the `error` key or is not approved sets the flag, any
other name is appended to the approved list. -/
def approval_loop (d : String → Http DrugsFdaJson)
    (lG : String → Http LabelJson) : List String → List String × Bool
  | [] => ([], false)
  | name :: rest =>
    let stripped := pyStrip name
    if stripped = "" then approval_loop d lG rest
    else
      let approval := check_fda_approval d lG stripped
      let tail := approval_loop d lG rest
      if approval.error.isSome ∨ approval.approved = false then (tail.1, true)
      else (stripped :: tail.1, tail.2)

/-- Embedding of `_determine_approval_labels` (automated_labeler.py lines
138-176): the detection gate (`discussing_drug` falsy or confidence below
the threshold, with `get` defaults), the empty-name-list gate, the
approval loop, and the all-or-nothing aggregation: any unapproved name
yields `(["drug-unapproved"], [])` with the approved list discarded,
otherwise `(["drug-approved"], approved_drugs)`. -/
def determine_approval_labels (d : String → Http DrugsFdaJson)
    (lG : String → Http LabelJson) (payload : Payload) :
    List String × List String :=
  if payload.discussing_drug.getD false = false
      ∨ payload.confidence_score.getD 0 < DRUG_CONFIDENCE_THRESHOLD then
    ([], [])
  else
    let drug_names := payload.drug_names.getD []
    if drug_names = [] then ([], [])
    else
      let looped := approval_loop d lG drug_names
      if looped.2 then (["drug-unapproved"], [])
      else (["drug-approved"], looped.1)

/-- Embedding of `_check_claims` exactly as written (automated_labeler.py
lines 97-136).  The body calls `extract_claim(text, drug_name)` with two
positional arguments, but claim_checker.py line 11 declares
`extract_claim(text, drug_name, llm_model)` with three required
parameters (and `fact_check_claim` likewise requires four); so the first
loop iteration raises `TypeError` before any inference happens, and only
an empty `approved_drugs` list returns normally. -/
def check_claims (text : String) :
    List String → Except String (List String × List ClaimDetail)
  | [] => .ok ([], [])
  | _ :: _ =>
    .error "TypeError: extract_claim() missing 1 required positional argument: llm_model"

/-- Instrumented outcome of a claim-checking run: the labels and details
it builds plus how many extractor and verifier inference functions it
invoked. -/
structure ClaimsOutcome where
  claim_labels : List String
  claim_details : List ClaimDetail
  extractor_calls : Nat
  verifier_calls : Nat
  deriving DecidableEq

/-- The body of `_check_claims` (automated_labeler.py lines 113-131) with
only the call arity repaired: `extract_claim` and `fact_check_claim` are
passed the module constants `LLM_MODEL` and `FACT_CHECK_THRESHOLD` that
automated_labeler.py defines for them but omits from the calls as
written (see `check_claims`).  Per drug: run the extractor; a falsy
`has_claim` skips the drug (no confidence gate is applied); otherwise
`claim_info["claim_text"]` is read (a `KeyError` if absent), the verifier
runs, a detail entry is recorded, and a `supported-claim` /
`unsupported-claim` label is appended for a non-`None` verdict. -/
def check_claims_intended (eLlm : String → String → String → Option ExtractJson)
    (vLlm : String → String → String → String → Option MatchJson)
    (lI : String → Http LabelJson) (text : String) :
    List String → Except String ClaimsOutcome
  | [] => .ok ⟨[], [], 0, 0⟩
  | drug_name :: rest =>
    let claim_info := extract_claim eLlm text drug_name LLM_MODEL
    if claim_info.has_claim.getD false = false then
      match check_claims_intended eLlm vLlm lI text rest with
      | .error e => .error e
      | .ok r => .ok { r with extractor_calls := r.extractor_calls + 1 }
    else
      match claim_info.claim_text with
      | none => .error "KeyError: claim_text"
      | some ct =>
        match fact_check_claim lI vLlm ct drug_name FACT_CHECK_THRESHOLD LLM_MODEL with
        | .error e => .error e
        | .ok fact_check =>
          let detail : ClaimDetail :=
            ⟨drug_name, ct, fact_check.supported, fact_check.evidence⟩
          let lbl : List String :=
            match fact_check.supported with
            | some true => ["supported-claim"]
            | some false => ["unsupported-claim"]
            | none => []
          match check_claims_intended eLlm vLlm lI text rest with
          | .error e => .error e
          | .ok r =>
            .ok ⟨lbl ++ r.claim_labels, detail :: r.claim_details,
                 r.extractor_calls + 1, r.verifier_calls + 1⟩

/-- Embedding of `moderate_post` (automated_labeler.py lines 178-224) for
a post whose fetch succeeded (its text is the input), exactly as written:
a `None` detection payload returns `[]` with no log write; the no-drug
and unapproved outcomes of `_determine_approval_labels` log once and
return early; otherwise `_check_claims` runs (raising `TypeError` on any
non-empty approved list, see `check_claims`) and the normal exit logs
once and returns the approval labels followed by the claim labels.  The
second component counts `_log_moderation_result` calls performed before
the run ends. -/
def moderate_post (detect : String → Option Payload)
    (d : String → Http DrugsFdaJson) (lG : String → Http LabelJson)
    (text : String) : Except String (List String) × Nat :=
  match detect text with
  | none => (.ok [], 0)
  | some payload =>
    let approvals := determine_approval_labels d lG payload
    if approvals.1 = [] ∨ "drug-unapproved" ∈ approvals.1 then
      (.ok approvals.1, 1)
    else
      match check_claims text approvals.2 with
      | .error e => (.error e, 0)
      | .ok claims => (.ok (approvals.1 ++ claims.1), 1)

/-- Instrumented outcome of one full `moderate_post` run: the returned
label list (or the uncaught exception), the number of audit-log writes,
and the number of claim-extractor and claim-verifier invocations. -/
structure RunResult where
  result : Except String (List String)
  log_writes : Nat
  extractor_calls : Nat
  verifier_calls : Nat

/-- `moderate_post` with the claim-checking stage in its arity-repaired
form `check_claims_intended`, so that extractor and verifier invocation
counts are observable.  All control flow before the claim stage is
identical to `moderate_post`. -/
def moderate_post_repaired (detect : String → Option Payload)
    (d : String → Http DrugsFdaJson) (lG : String → Http LabelJson)
    (lI : String → Http LabelJson)
    (eLlm : String → String → String → Option ExtractJson)
    (vLlm : String → String → String → String → Option MatchJson)
    (text : String) : RunResult :=
  match detect text with
  | none => ⟨.ok [], 0, 0, 0⟩
  | some payload =>
    let approvals := determine_approval_labels d lG payload
    if approvals.1 = [] ∨ "drug-unapproved" ∈ approvals.1 then
      ⟨.ok approvals.1, 1, 0, 0⟩
    else
      match check_claims_intended eLlm vLlm lI text approvals.2 with
      | .error e => ⟨.error e, 0, 0, 0⟩
      | .ok o => ⟨.ok (approvals.1 ++ o.claim_labels), 1,
                  o.extractor_calls, o.verifier_calls⟩

/-! ## Claim theorems -/

/-- C5: the approval resolver `check_fda_approval` never raises — it is a
total function into `ApprovalResult` — and it is fail-closed: whenever the
`error` key is present the result is unapproved, and an exception raised
anywhere in its lookup steps yields exactly the unapproved dictionary
carrying that error message. -/
theorem C5_resolver_never_raises_fail_closed (d : String → Http DrugsFdaJson)
    (lG : String → Http LabelJson) (name : String) :
    ((check_fda_approval d lG name).error.isSome →
      (check_fda_approval d lG name).approved = false) ∧
    (∀ msg, check_fda_approval_results d lG name = .error msg →
      check_fda_approval d lG name = { approved := false, error := some msg }) := by
  constructor
  · intro h
    cases hr : check_fda_approval_results d lG name with
    | error msg => simp [check_fda_approval, hr]
    | ok res =>
      cases res with
      | nil => simp [check_fda_approval, hr] at h
      | cons r rest => simp [check_fda_approval, hr] at h
  · intro msg hmsg
    simp [check_fda_approval, hmsg]

/-- C5 witness: a transport failure on the very first approval-index query
is caught and reported as an unapproved result carrying the message. -/
theorem C5_resolver_never_raises_fail_closed_witness :
    check_fda_approval (fun _ => Http.err "timeout") (fun _ => Http.err "down") "drugx"
      = { approved := false, error := some "timeout" } :=
  (C5_resolver_never_raises_fail_closed (fun _ => Http.err "timeout")
    (fun _ => Http.err "down") "drugx").2 "timeout" rfl

/-- C4 counterexample: `get_fda_labeling` has no exception handler in the
source, so a transport exception from the labeling-index request
propagates (the call raises) instead of yielding the empty indication
set; the claim fails at this input. -/
theorem C4_labeling_transport_counterexample :
    get_fda_labeling (fun _ => Http.err "ConnectionError") "lipitor"
        = .error "ConnectionError" ∧
    raises (get_fda_labeling (fun _ => Http.err "ConnectionError") "lipitor") = true := by
  exact ⟨rfl, rfl⟩

/-- C4 amended: `get_fda_labeling` returns the empty indication set on a
non-200 status and on an empty result list, but a transport exception
from the request, or a parse exception from the body of a 200 response,
propagates to the caller uncaught. -/
theorem C4_labeling_error_handling (lI : String → Http LabelJson) (name : String) :
    (∀ s b, lI name = .resp s b → s ≠ 200 → get_fda_labeling lI name = .ok none) ∧
    (∀ b, lI name = .resp 200 (.ok b) → b.results = [] →
      get_fda_labeling lI name = .ok none) ∧
    (∀ m, lI name = .err m → get_fda_labeling lI name = .error m) ∧
    (∀ m, lI name = .resp 200 (.error m) → get_fda_labeling lI name = .error m) := by
  refine ⟨?_, ?_, ?_, ?_⟩
  · intro s b h hs
    simp [get_fda_labeling, h, hs]
  · intro b h hb
    simp [get_fda_labeling, h, hb]
  · intro m h
    simp [get_fda_labeling, h]
  · intro m h
    simp [get_fda_labeling, h]

/-- C4 witness: a 500 status yields the empty indication set. -/
theorem C4_labeling_error_handling_witness :
    get_fda_labeling (fun _ => Http.resp 500 (.ok {})) "advil" = .ok none :=
  (C4_labeling_error_handling (fun _ => Http.resp 500 (.ok {})) "advil").1
    500 (.ok {}) rfl (by decide)

/-- C9: the indication corpus sent to the verifier matching prompt is the
concatenated indication text unmodified when it has at most 1500
characters, and its first 1500 characters followed by the explicit
truncation marker when it is longer. -/
theorem C9_verifier_corpus_truncation (indications : List String) :
    ((format_fda_text indications).length ≤ 1500 →
      truncate_fda_text (format_fda_text indications) = format_fda_text indications) ∧
    (1500 < (format_fda_text indications).length →
      truncate_fda_text (format_fda_text indications) =
        (format_fda_text indications).take 1500 ++ "\n... (truncated)") := by
  constructor
  · intro h
    simp [truncate_fda_text, Nat.not_lt.mpr h]
  · intro h
    simp [truncate_fda_text, h]

set_option maxRecDepth 20000 in
/-- C9 witness: a single 1501-character indication is truncated with the
marker. -/
theorem C9_verifier_corpus_truncation_witness :
    truncate_fda_text (format_fda_text [String.mk (List.replicate 1501 'a')]) =
      (format_fda_text [String.mk (List.replicate 1501 'a')]).take 1500
        ++ "\n... (truncated)" :=
  (C9_verifier_corpus_truncation [String.mk (List.replicate 1501 'a')]).2 (by decide)

/-- C6 counterexample: the brand name "advil" is absent from the approval
index, the labeling index maps it to the generic name "ADVIL" — a string
different from the input — and the approval index does have a record
under "ADVIL"; yet the resolver returns approved = false, because the
source only requeries when the translated name differs from the input
case-insensitively (`generic_name.lower() != drug_name.lower()`). -/
theorem C6_two_hop_counterexample :
    fetch_fda_results
        (fun s => if s = "ADVIL"
          then Http.resp 200 (.ok { results := [{ openfda := { generic_name := ["ADVIL"] } }] })
          else Http.resp 200 (.ok {}))
        "advil" = .ok [] ∧
    get_generic_name_from_label
        (fun _ => Http.resp 200 (.ok { results := [{ openfda := { generic_name := ["ADVIL"] } }] }))
        "advil" = "ADVIL" ∧
    ("ADVIL" == "advil") = false ∧
    fetch_fda_results
        (fun s => if s = "ADVIL"
          then Http.resp 200 (.ok { results := [{ openfda := { generic_name := ["ADVIL"] } }] })
          else Http.resp 200 (.ok {}))
        "ADVIL" = .ok [{ openfda := { generic_name := ["ADVIL"] } }] ∧
    check_fda_approval
        (fun s => if s = "ADVIL"
          then Http.resp 200 (.ok { results := [{ openfda := { generic_name := ["ADVIL"] } }] })
          else Http.resp 200 (.ok {}))
        (fun _ => Http.resp 200 (.ok { results := [{ openfda := { generic_name := ["ADVIL"] } }] }))
        "advil" = { approved := false } := by
  decide

/-- C6 amended: for a drug name absent from the approval index whose
labeling-index translation yields a non-empty generic name differing from
the input name case-insensitively, and for which the approval index has a
record under that generic name, the resolver returns approved = true with
the identity fields taken from the record found via the generic name. -/
theorem C6_two_hop_fallback (d : String → Http DrugsFdaJson)
    (lG : String → Http LabelJson) (name g : String)
    (h1 : fetch_fda_results d name = .ok [])
    (h2 : get_generic_name_from_label lG name = g)
    (h3 : g ≠ "")
    (h4 : pyLower g ≠ pyLower name)
    (r : FdaRecord) (rest : List FdaRecord)
    (h5 : fetch_fda_results d g = .ok (r :: rest)) :
    check_fda_approval d lG name =
      { approved := true
        brand_name := some r.openfda.brand_name.head?
        generic_name := some r.openfda.generic_name.head?
        manufacturer := some r.openfda.manufacturer_name.head? } := by
  have hres : check_fda_approval_results d lG name = .ok (r :: rest) := by
    unfold check_fda_approval_results
    rw [h1]
    simp only [List.isEmpty_nil, if_true, h2]
    rw [if_pos ⟨h3, h4⟩, h5]
  simp [check_fda_approval, hres]

/-- C6 witness: the brand name "mybrand" translates to the generic name
"generix", found approved in the approval index. -/
theorem C6_two_hop_fallback_witness :
    check_fda_approval
        (fun s => if s = "generix"
          then Http.resp 200 (.ok { results :=
            [{ openfda := { brand_name := ["MyBrand"], generic_name := ["GENERIX"],
                            manufacturer_name := ["Pharma"] } }] })
          else Http.resp 404 (.ok {}))
        (fun _ => Http.resp 200 (.ok { results := [{ openfda := { generic_name := ["generix"] } }] }))
        "mybrand" =
      { approved := true
        brand_name := some (some "MyBrand")
        generic_name := some (some "GENERIX")
        manufacturer := some (some "Pharma") } := by
  exact C6_two_hop_fallback
    (fun s => if s = "generix"
      then Http.resp 200 (.ok { results :=
        [{ openfda := { brand_name := ["MyBrand"], generic_name := ["GENERIX"],
                        manufacturer_name := ["Pharma"] } }] })
      else Http.resp 404 (.ok {}))
    (fun _ => Http.resp 200 (.ok { results := [{ openfda := { generic_name := ["generix"] } }] }))
    "mybrand" "generix" (by decide) (by decide) (by decide) (by decide)
    { openfda := { brand_name := ["MyBrand"], generic_name := ["GENERIX"],
                   manufacturer_name := ["Pharma"] } } [] (by decide)

/-- Helper: the approval loop over names that are all blank after
stripping accumulates nothing and raises no flag. -/
theorem approval_loop_all_blank (d : String → Http DrugsFdaJson)
    (lG : String → Http LabelJson) (ns : List String)
    (h : ∀ n ∈ ns, pyStrip n = "") : approval_loop d lG ns = ([], false) := by
  induction ns with
  | nil => rfl
  | cons n rest ih =>
    have hn : pyStrip n = "" := h n (List.mem_cons_self n rest)
    have hrest : ∀ m ∈ rest, pyStrip m = "" :=
      fun m hm => h m (List.mem_cons_of_mem n hm)
    simp [approval_loop, hn, ih hrest]

/-- Helper: if some name in the list is non-blank after stripping and its
approval result is errored or unapproved, the loop raises the
`has_unapproved` flag. -/
theorem approval_loop_flags_unapproved (d : String → Http DrugsFdaJson)
    (lG : String → Http LabelJson) (ns : List String)
    (h : ∃ n ∈ ns, pyStrip n ≠ "" ∧
      ((check_fda_approval d lG (pyStrip n)).error.isSome ∨
       (check_fda_approval d lG (pyStrip n)).approved = false)) :
    (approval_loop d lG ns).2 = true := by
  induction ns with
  | nil => simp at h
  | cons n rest ih =>
    rcases h with ⟨m, hm, hms, hbad⟩
    rcases List.mem_cons.mp hm with heq | hmr
    · subst heq
      simp only [approval_loop]
      rw [if_neg hms, if_pos hbad]
    · have htail := ih ⟨m, hmr, hms, hbad⟩
      simp only [approval_loop]
      split
      · exact htail
      · split
        · rfl
        · exact htail

/-- Helper: when the payload discusses a drug and meets the confidence
threshold, the early gate of `_determine_approval_labels` does not fire. -/
theorem gate_not_triggered {p : Payload}
    (hdisc : p.discussing_drug.getD false = true)
    (hconf : DRUG_CONFIDENCE_THRESHOLD ≤ p.confidence_score.getD 0) :
    ¬(p.discussing_drug.getD false = false ∨
      p.confidence_score.getD 0 < DRUG_CONFIDENCE_THRESHOLD) := by
  rintro (h | h)
  · rw [hdisc] at h
    exact Bool.noConfusion h
  · exact absurd h (not_lt.mpr hconf)

/-- C1: when the detection gate passes and some stripped drug name
resolves errored or unapproved, the approved-name list is discarded, the
final label list returned by `moderate_post` is exactly
["drug-unapproved"], and the claim extractor and claim verifier are
invoked zero times on the run. -/
theorem C1_any_unapproved_short_circuits (detect : String → Option Payload)
    (d : String → Http DrugsFdaJson) (lG lI : String → Http LabelJson)
    (eLlm : String → String → String → Option ExtractJson)
    (vLlm : String → String → String → String → Option MatchJson)
    (text : String) (p : Payload)
    (hdet : detect text = some p)
    (hdisc : p.discussing_drug.getD false = true)
    (hconf : DRUG_CONFIDENCE_THRESHOLD ≤ p.confidence_score.getD 0)
    (hbad : ∃ n ∈ p.drug_names.getD [], pyStrip n ≠ "" ∧
      ((check_fda_approval d lG (pyStrip n)).error.isSome ∨
       (check_fda_approval d lG (pyStrip n)).approved = false)) :
    determine_approval_labels d lG p = (["drug-unapproved"], []) ∧
    moderate_post detect d lG text = (.ok ["drug-unapproved"], 1) ∧
    moderate_post_repaired detect d lG lI eLlm vLlm text =
      { result := .ok ["drug-unapproved"], log_writes := 1,
        extractor_calls := 0, verifier_calls := 0 } := by
  have hne : p.drug_names.getD [] ≠ [] := by
    rcases hbad with ⟨n, hn, -⟩
    intro hnil
    rw [hnil] at hn
    exact List.not_mem_nil n hn
  have hloop := approval_loop_flags_unapproved d lG _ hbad
  have h1 : determine_approval_labels d lG p = (["drug-unapproved"], []) := by
    unfold determine_approval_labels
    rw [if_neg (gate_not_triggered hdisc hconf)]
    simp [hne, hloop]
  refine ⟨h1, ?_, ?_⟩
  · simp [moderate_post, hdet, h1]
  · simp [moderate_post_repaired, hdet, h1]

/-- C1 witness: a single unknown drug name triggers the unapproved
short-circuit. -/
theorem C1_any_unapproved_short_circuits_witness :
    determine_approval_labels (fun _ => Http.resp 200 (.ok {}))
        (fun _ => Http.resp 404 (.ok {}))
        { discussing_drug := some true, confidence_score := some 1,
          drug_names := some ["fakedrug"] } = (["drug-unapproved"], []) ∧
    moderate_post
        (fun _ => some { discussing_drug := some true, confidence_score := some 1,
                         drug_names := some ["fakedrug"] })
        (fun _ => Http.resp 200 (.ok {})) (fun _ => Http.resp 404 (.ok {}))
        "post" = (.ok ["drug-unapproved"], 1) ∧
    moderate_post_repaired
        (fun _ => some { discussing_drug := some true, confidence_score := some 1,
                         drug_names := some ["fakedrug"] })
        (fun _ => Http.resp 200 (.ok {})) (fun _ => Http.resp 404 (.ok {}))
        (fun _ => Http.err "unused") (fun _ _ _ => none) (fun _ _ _ _ => none)
        "post" =
      { result := .ok ["drug-unapproved"], log_writes := 1,
        extractor_calls := 0, verifier_calls := 0 } :=
  C1_any_unapproved_short_circuits _ _ _ _ _ _ "post" _ rfl rfl (by decide) (by decide)

/-- C8: a detection payload whose confidence score is below the 0.65
threshold yields no approval labels and an empty final label list from
`moderate_post`, regardless of the discussing flag and the drug-name
list. -/
theorem C8_low_confidence_empty_labels (detect : String → Option Payload)
    (d : String → Http DrugsFdaJson) (lG : String → Http LabelJson)
    (text : String) (p : Payload)
    (hdet : detect text = some p)
    (hconf : p.confidence_score.getD 0 < DRUG_CONFIDENCE_THRESHOLD) :
    determine_approval_labels d lG p = ([], []) ∧
    moderate_post detect d lG text = (.ok [], 1) := by
  have h1 : determine_approval_labels d lG p = ([], []) := by
    unfold determine_approval_labels
    rw [if_pos (Or.inr hconf)]
  exact ⟨h1, by simp [moderate_post, hdet, h1]⟩

/-- C8 witness: confidence 0 with the discussing flag set and a non-empty
drug-name list still yields the empty label list. -/
theorem C8_low_confidence_empty_labels_witness :
    moderate_post
        (fun _ => some { discussing_drug := some true, confidence_score := some 0,
                         drug_names := some ["Tylenol"] })
        (fun _ => Http.err "down") (fun _ => Http.err "down") "post" = (.ok [], 1) :=
  (C8_low_confidence_empty_labels _ _ _ "post" _ rfl (by decide)).2

/-- C10: when the detection gate passes and the drug-name list is
non-empty but every name is blank after stripping, every name is skipped,
`_determine_approval_labels` returns (["drug-approved"], []), and the
pipeline returns exactly ["drug-approved"] with zero extractor and
verifier invocations. -/
theorem C10_blank_names_all_approved (detect : String → Option Payload)
    (d : String → Http DrugsFdaJson) (lG lI : String → Http LabelJson)
    (eLlm : String → String → String → Option ExtractJson)
    (vLlm : String → String → String → String → Option MatchJson)
    (text : String) (p : Payload) (ns : List String)
    (hdet : detect text = some p)
    (hdisc : p.discussing_drug.getD false = true)
    (hconf : DRUG_CONFIDENCE_THRESHOLD ≤ p.confidence_score.getD 0)
    (hns : p.drug_names = some ns)
    (hne : ns ≠ [])
    (hblank : ∀ n ∈ ns, pyStrip n = "") :
    determine_approval_labels d lG p = (["drug-approved"], []) ∧
    moderate_post detect d lG text = (.ok ["drug-approved"], 1) ∧
    moderate_post_repaired detect d lG lI eLlm vLlm text =
      { result := .ok ["drug-approved"], log_writes := 1,
        extractor_calls := 0, verifier_calls := 0 } := by
  have hloop := approval_loop_all_blank d lG ns hblank
  have h1 : determine_approval_labels d lG p = (["drug-approved"], []) := by
    unfold determine_approval_labels
    rw [if_neg (gate_not_triggered hdisc hconf)]
    simp [hns, hne, hloop]
  refine ⟨h1, ?_, ?_⟩
  · simp [moderate_post, hdet, h1, check_claims]
  · simp [moderate_post_repaired, hdet, h1, check_claims_intended]

/-- C10 witness: a whitespace-only drug name is skipped and the pipeline
returns ["drug-approved"] with no claim checks. -/
theorem C10_blank_names_all_approved_witness :
    moderate_post
        (fun _ => some { discussing_drug := some true, confidence_score := some 1,
                         drug_names := some ["  "] })
        (fun _ => Http.err "down") (fun _ => Http.err "down") "post"
      = (.ok ["drug-approved"], 1) ∧
    moderate_post_repaired
        (fun _ => some { discussing_drug := some true, confidence_score := some 1,
                         drug_names := some ["  "] })
        (fun _ => Http.err "down") (fun _ => Http.err "down")
        (fun _ => Http.err "down") (fun _ _ _ => none) (fun _ _ _ _ => none) "post"
      = { result := .ok ["drug-approved"], log_writes := 1,
          extractor_calls := 0, verifier_calls := 0 } := by
  have h := C10_blank_names_all_approved
    (fun _ => some { discussing_drug := some true, confidence_score := some 1,
                     drug_names := some ["  "] })
    (fun _ => Http.err "down") (fun _ => Http.err "down") (fun _ => Http.err "down")
    (fun _ _ _ => none) (fun _ _ _ _ => none) "post" _ ["  "]
    rfl rfl (by decide) rfl (by decide) (by decide)
  exact ⟨h.2.1, h.2.2⟩

/-- C7 counterexample: on the detection-parse-failure terminal path
(`payload is None`, automated_labeler.py lines 199-200) `moderate_post`
returns the empty label list having performed zero audit-log writes, not
the exactly-one write the claim requires of every terminal path. -/
theorem C7_parse_failure_no_audit_write :
    moderate_post (fun _ => none) (fun _ => Http.err "e") (fun _ => Http.err "e") "post"
      = (.ok [], 0) := rfl

/-- C7 amended: every run of `moderate_post` that returns a label list
performs exactly one audit write — except the detection-parse-failure
path, which returns the empty list with zero audit writes. -/
theorem C7_audit_write_per_terminal (detect : String → Option Payload)
    (d : String → Http DrugsFdaJson) (lG : String → Http LabelJson)
    (text : String) :
    (detect text = none → moderate_post detect d lG text = (.ok [], 0)) ∧
    (∀ p labels, detect text = some p →
      (moderate_post detect d lG text).1 = .ok labels →
      (moderate_post detect d lG text).2 = 1) := by
  constructor
  · intro h
    simp [moderate_post, h]
  · intro p labels hdet hres
    simp only [moderate_post, hdet] at hres ⊢
    by_cases hc : (determine_approval_labels d lG p).1 = [] ∨
        "drug-unapproved" ∈ (determine_approval_labels d lG p).1
    · rw [if_pos hc]
    · rw [if_neg hc] at hres ⊢
      cases hcc : check_claims text (determine_approval_labels d lG p).2 with
      | error e =>
        rw [hcc] at hres
        simp at hres
      | ok claims =>
        rfl

/-- C7 witness: a no-drug run returns normally and logs exactly once. -/
theorem C7_audit_write_per_terminal_witness :
    (moderate_post (fun _ => some {}) (fun _ => Http.err "e") (fun _ => Http.err "e")
      "post").2 = 1 :=
  (C7_audit_write_per_terminal (fun _ => some {}) (fun _ => Http.err "e")
    (fun _ => Http.err "e") "post").2 {} [] rfl rfl

/-- C2 (code bug): a run that reaches the claim-checking stage with an
approved drug does not return — it raises.  `_check_claims` calls
`extract_claim(text, drug_name)` (automated_labeler.py line 114) although
claim_checker.py line 11 declares three required parameters, so the call
raises TypeError before any log write; here the detector reports
"Ozempic" with confidence 1 and the approval index knows the drug. -/
theorem C2_claim_stage_raises_typeerror :
    moderate_post
        (fun _ => some { discussing_drug := some true, confidence_score := some 1,
                         drug_names := some ["Ozempic"] })
        (fun _ => Http.resp 200 (.ok { results := [{ openfda :=
            { brand_name := ["Ozempic"], generic_name := ["semaglutide"],
              manufacturer_name := ["Novo Nordisk"] } }] }))
        (fun _ => Http.err "unused")
        "Ozempic treats type 2 diabetes"
      = (.error "TypeError: extract_claim() missing 1 required positional argument: llm_model",
         0) ∧
    raises (moderate_post
        (fun _ => some { discussing_drug := some true, confidence_score := some 1,
                         drug_names := some ["Ozempic"] })
        (fun _ => Http.resp 200 (.ok { results := [{ openfda :=
            { brand_name := ["Ozempic"], generic_name := ["semaglutide"],
              manufacturer_name := ["Novo Nordisk"] } }] }))
        (fun _ => Http.err "unused")
        "Ozempic treats type 2 diabetes").1 = true := by
  decide

/-- The extraction-confidence band (design value 0.7) that the spec says
callers must gate `has_claim` on before trusting it; the source never
reads it outside the extraction prompt text. -/
def EXTRACT_CONFIDENCE_BAND : Rat := ⟨7, 10, by norm_num, by norm_num⟩

/-- C3 counterexample: an extractor result with has_claim = true and
claim confidence 0 — below the 0.7 band — is not treated as no-claim by
the caller: the verifier is invoked for the drug, a claim-detail entry is
recorded, and a claim label is appended. -/
theorem C3_no_confidence_gate_counterexample :
    (extract_claim (fun _ _ _ => some ⟨some true, some 0, some "headaches"⟩)
        "post" "acetaminophen" LLM_MODEL).has_claim = some true ∧
    (extract_claim (fun _ _ _ => some ⟨some true, some 0, some "headaches"⟩)
        "post" "acetaminophen" LLM_MODEL).claim_confidence = some 0 ∧
    ((0 : Rat) < EXTRACT_CONFIDENCE_BAND) = True ∧
    check_claims_intended
        (fun _ _ _ => some { has_claim := some true, claim_confidence := some 0,
                             claim_text := some "headaches" })
        (fun _ _ _ _ => some { match_score := some 1, evidence := some "match" })
        (fun _ => Http.resp 200 (.ok { results :=
            [{ indications_and_usage := ["For the temporary relief of headaches"] }] }))
        "post" ["acetaminophen"]
      = .ok { claim_labels := ["supported-claim"]
              claim_details := [{ drug_name := "acetaminophen", claim_text := "headaches",
                                  supported := some true, evidence := "match" }]
              extractor_calls := 1, verifier_calls := 1 } := by
  refine ⟨rfl, rfl, ?_, by decide⟩
  simp only [eq_iff_iff, iff_true]
  decide

/-- C3 amended: the caller applies no confidence gate — for an extractor
result with has_claim = true, even with claim confidence below the 0.7
band, the verifier is invoked for that drug and a claim-detail entry is
recorded (with a claim label appended for a non-None verdict). -/
theorem C3_no_confidence_gate (eLlm : String → String → String → Option ExtractJson)
    (vLlm : String → String → String → String → Option MatchJson)
    (lI : String → Http LabelJson) (text drug ct : String) (c : Rat)
    (hhc : (extract_claim eLlm text drug LLM_MODEL).has_claim = some true)
    (hconf : (extract_claim eLlm text drug LLM_MODEL).claim_confidence = some c)
    (hlow : c < EXTRACT_CONFIDENCE_BAND)
    (hct : (extract_claim eLlm text drug LLM_MODEL).claim_text = some ct)
    (fc : FactCheckResult)
    (hfc : fact_check_claim lI vLlm ct drug FACT_CHECK_THRESHOLD LLM_MODEL = .ok fc) :
    check_claims_intended eLlm vLlm lI text [drug] =
      .ok { claim_labels :=
              match fc.supported with
              | some true => ["supported-claim"]
              | some false => ["unsupported-claim"]
              | none => []
            claim_details := [{ drug_name := drug, claim_text := ct,
                                supported := fc.supported, evidence := fc.evidence }]
            extractor_calls := 1, verifier_calls := 1 } := by
  rcases fc with ⟨sup, ev⟩
  simp only [check_claims_intended, hhc, hct, hfc]
  cases sup with
  | none => simp
  | some b => cases b <;> simp

/-- C3 witness: the amended behaviour at the counterexample input — the
low-confidence claim is verified and recorded. -/
theorem C3_no_confidence_gate_witness :
    check_claims_intended
        (fun _ _ _ => some { has_claim := some true, claim_confidence := some 0,
                             claim_text := some "headaches" })
        (fun _ _ _ _ => some { match_score := some 1, evidence := some "matches the label" })
        (fun _ => Http.resp 200 (.ok { results :=
            [{ indications_and_usage := ["For the temporary relief of headaches"] }] }))
        "post two" ["paracetamol"]
      = .ok { claim_labels := ["supported-claim"]
              claim_details := [{ drug_name := "paracetamol", claim_text := "headaches",
                                  supported := some true, evidence := "matches the label" }]
              extractor_calls := 1, verifier_calls := 1 } :=
  C3_no_confidence_gate
    (fun _ _ _ => some { has_claim := some true, claim_confidence := some 0,
                         claim_text := some "headaches" })
    (fun _ _ _ _ => some { match_score := some 1, evidence := some "matches the label" })
    (fun _ => Http.resp 200 (.ok { results :=
        [{ indications_and_usage := ["For the temporary relief of headaches"] }] }))
    "post two" "paracetamol" "headaches" 0
    rfl rfl (by decide) rfl { supported := some true, evidence := "matches the label" }
    (by decide)

end MedMisinfo
